import Mathlib

/-!
# The `flexible-gnu-toolchain` test package

A shallow embedding of `flexible-gnu-toolchain/test_package/src/main.cpp`:

```
int main() {
    using namespace std::literals::string_literals;
    std::cout << "Hello, World!"s << std::endl;
    return 0;
}
```

`main` is three steps: the insertion of the `std::string` literal into `std::cout`, the
application of the manipulator `std::endl`, and `return 0`.  The library calls are embedded
after the C++ standard and libstdc++ 12 (`bits/ostream.tcc`, `bits/ostream_insert.h`,
`bits/basic_ios.h`): a stream carries its error state, its exception mask and its stream
buffer; a stream buffer carries a put area of bounded size in front of a device that may
refuse characters.  Each call of a member of `std::cout` made by `main` is recorded in a
trace kept with the stream.
-/

namespace HelloWorld

/-! ## `std::ios_base::iostate` -/

/-- The error bits of `std::ios_base::iostate`. -/
structure IoState where
  bad : Bool
  eof : Bool
  fail : Bool
deriving DecidableEq, Repr

/-- The value `std::ios_base::goodbit`: no bit set. -/
def goodbit : IoState := ⟨false, false, false⟩

/-- The value `std::ios_base::badbit`. -/
def badbit : IoState := ⟨true, false, false⟩

/-- The value `std::ios_base::failbit`. -/
def failbit : IoState := ⟨false, false, true⟩

/-- Bitwise or of two `iostate` values (`a | b`). -/
def IoState.or (a b : IoState) : IoState :=
  ⟨a.bad || b.bad, a.eof || b.eof, a.fail || b.fail⟩

/-- Bitwise and of two `iostate` values (`a & b`). -/
def IoState.and (a b : IoState) : IoState :=
  ⟨a.bad && b.bad, a.eof && b.eof, a.fail && b.fail⟩

/-- Conversion of an `iostate` value to `bool`: true when some bit is set. -/
def IoState.any (a : IoState) : Bool :=
  a.bad || a.eof || a.fail

/-! ## `std::basic_streambuf` -/

/-- The stream buffer behind `std::cout`.

* `device` : the characters that have reached standard output, oldest first;
* `pending` : the characters stored in the put area and not yet handed to the device;
* `cap` : the size of the put area (`0` for an unbuffered stream);
* `room` : how many more characters the device accepts (`none`: no limit; `some 0`: a closed
  or full standard output). -/
structure StreamBuf where
  device : List Char
  pending : List Char
  cap : Nat
  room : Option Nat
deriving DecidableEq, Repr

/-- Hand the characters `cs` to the device.  The device takes as many leading characters as it
has room for; the characters it did not take are returned. -/
def StreamBuf.transmit (cs : List Char) (b : StreamBuf) : StreamBuf × List Char :=
  match b.room with
  | none => ({ b with device := b.device ++ cs }, [])
  | some r =>
    ({ b with device := b.device ++ cs.take r, room := some (r - (cs.take r).length) },
      cs.drop r)

/-- The call `overflow(c)` (`[streambuf.virt.put]`): consume the pending sequence, made of the
put area followed by `c`.  The put area is handed to the device; when the device took all of
it, `c` is stored in the emptied put area, or handed to the device when there is no put
area.  The result is `false` for `traits::eof()`. -/
def StreamBuf.overflow (c : Char) (b : StreamBuf) : StreamBuf × Bool :=
  match b.transmit b.pending with
  | (b1, []) =>
    if b1.cap = 0 then
      match ({ b1 with pending := [] } : StreamBuf).transmit [c] with
      | (b2, []) => (b2, true)
      | (b2, _ :: _) => (b2, false)
    else ({ b1 with pending := [c] }, true)
  | (b1, r :: rest) => ({ b1 with pending := r :: rest }, false)

/-- The call `sputc(c)`: store `c` in the put area when a write position is available,
otherwise return `overflow(c)`.  The result is `false` for `traits::eof()`. -/
def StreamBuf.sputc (c : Char) (b : StreamBuf) : StreamBuf × Bool :=
  if b.pending.length < b.cap then ({ b with pending := b.pending ++ [c] }, true)
  else b.overflow c

/-- The call `sputn(s, n)`, that is `xsputn(s, n)`: write the characters of `s` as if by
repeated calls of `sputc`, stopping at the first one that returns `traits::eof()`; the result
is the number of characters written. -/
def StreamBuf.sputn : List Char → StreamBuf → StreamBuf × Nat
  | [], b => (b, 0)
  | c :: cs, b =>
    match b.sputc c with
    | (b1, true) => ((StreamBuf.sputn cs b1).1, (StreamBuf.sputn cs b1).2 + 1)
    | (b1, false) => (b1, 0)

/-- The call `pubsync()`, that is `sync()`: hand the put area to the device.  The result is
`false` for `-1`. -/
def StreamBuf.pubsync (b : StreamBuf) : StreamBuf × Bool :=
  match b.transmit b.pending with
  | (b1, []) => ({ b1 with pending := [] }, true)
  | (b1, r :: rest) => ({ b1 with pending := r :: rest }, false)

/-- Everything the stream buffer has accepted: what reached the device, then the put area. -/
def StreamBuf.contents (b : StreamBuf) : List Char :=
  b.device ++ b.pending

/-! ## `std::basic_ostream` -/

/-- A call of a member of `std::cout`, as recorded in the trace. -/
inductive StreamOp where
  /-- The string inserter `operator<<(ostream&, const string&)` called with these characters. -/
  | insert (s : List Char)
  /-- The member `put(c)`. -/
  | put (c : Char)
  /-- The member `flush()`. -/
  | flush
deriving DecidableEq, Repr

/-- The object `std::cout`: error state `rdstate()`, exception mask `exceptions()`, stream
buffer `rdbuf()`, and the trace of member calls made on it so far.  The other formatting
state keeps the values `basic_ios::init` gives it, which `main` never changes: `width()` is
`0`, so the inserter pads nothing, `tie()` is null and `unitbuf` is clear, so a sentry flushes
nothing. -/
structure OStream where
  rdstate : IoState
  exceptions : IoState
  rdbuf : StreamBuf
  trace : List StreamOp
deriving DecidableEq, Repr

/-- A call on a stream either returns (`.ok`) or throws `std::ios_base::failure` (`.error`);
both carry the stream as the call left it. -/
abbrev Call (α : Type) := Except OStream α

/-- The member `good()`: `rdstate() == 0`. -/
def OStream.good (os : OStream) : Bool :=
  decide (os.rdstate = goodbit)

/-- The member `bad()`: `(rdstate() & badbit) != 0`. -/
def OStream.bad (os : OStream) : Bool :=
  os.rdstate.bad

/-- The member `clear(state)`: store `state`, then throw when
`exceptions() & rdstate()` is non-zero. -/
def OStream.clear (state : IoState) (os : OStream) : Call OStream :=
  if (os.exceptions.and state).any then .error { os with rdstate := state }
  else .ok { os with rdstate := state }

/-- The member `setstate(state)`: `clear(rdstate() | state)`. -/
def OStream.setstate (state : IoState) (os : OStream) : Call OStream :=
  os.clear (os.rdstate.or state)

/-- The constructor of `ostream::sentry`: `ok_` is true when the stream is good; a stream
that is bad gets `failbit` as well. -/
def OStream.sentry (os : OStream) : Call (OStream × Bool) :=
  if os.good then .ok (os, true)
  else if os.bad then
    match os.setstate failbit with
    | .ok os1 => .ok (os1, false)
    | .error os1 => .error os1
  else .ok (os, false)

/-- The helper `__ostream_write(out, s, n)`: `sputn` the characters, and set `badbit` when
fewer than `n` were written. -/
def ostream_write (s : List Char) (os : OStream) : Call OStream :=
  if (os.rdbuf.sputn s).2 ≠ s.length then
    ({ os with rdbuf := (os.rdbuf.sputn s).1 } : OStream).setstate badbit
  else .ok { os with rdbuf := (os.rdbuf.sputn s).1 }

/-- The string inserter `operator<<(ostream&, const string&)`, that is
`__ostream_insert(out, s.data(), s.size())`: construct a sentry and, when it is ok, write the
characters (`width()` is `0`, so nothing is padded). -/
def ostream_insert (s : List Char) (os : OStream) : Call OStream :=
  match ({ os with trace := os.trace ++ [StreamOp.insert s] } : OStream).sentry with
  | .ok (os1, true) => ostream_write s os1
  | .ok (os1, false) => .ok os1
  | .error os1 => .error os1

/-- The member `put(c)`: construct a sentry and, when it is ok, `sputc(c)`; set `badbit` when
that returns `traits::eof()`. -/
def OStream.put (c : Char) (os : OStream) : Call OStream :=
  match ({ os with trace := os.trace ++ [StreamOp.put c] } : OStream).sentry with
  | .ok (os1, true) =>
    if (os1.rdbuf.sputc c).2 then .ok { os1 with rdbuf := (os1.rdbuf.sputc c).1 }
    else ({ os1 with rdbuf := (os1.rdbuf.sputc c).1 } : OStream).setstate badbit
  | .ok (os1, false) => .ok os1
  | .error os1 => .error os1

/-- The member `flush()`: construct a sentry and, when it is ok, `rdbuf()->pubsync()`; set
`badbit` when that returns `-1`. -/
def OStream.flush (os : OStream) : Call OStream :=
  match ({ os with trace := os.trace ++ [StreamOp.flush] } : OStream).sentry with
  | .ok (os1, true) =>
    if (os1.rdbuf.pubsync).2 then .ok { os1 with rdbuf := (os1.rdbuf.pubsync).1 }
    else ({ os1 with rdbuf := (os1.rdbuf.pubsync).1 } : OStream).setstate badbit
  | .ok (os1, false) => .ok os1
  | .error os1 => .error os1

/-- The manipulator `std::endl`: `flush(os.put(os.widen('\n')))`. -/
def endl (os : OStream) : Call OStream :=
  match os.put '\n' with
  | .ok os1 => os1.flush
  | .error os1 => .error os1

/-! ## The process and `main` -/

/-- The state a run of the program can observe or change: command-line arguments,
environment variables, the contents of standard input, the file system (path and contents of
each file), and `std::cout`. -/
structure World where
  args : List String
  env : List (String × String)
  stdin : List Char
  files : List (String × List Char)
  cout : OStream
deriving DecidableEq, Repr

/-- How `main` ends: by returning an exit code, or through `std::terminate` when an exception
leaves it. -/
inductive Outcome where
  | returned (code : Int)
  | terminated
deriving DecidableEq, Repr

/-- The literal `"Hello, World!"s`. -/
def helloWorld : List Char := "Hello, World!".toList

/-- The function `main` of `main.cpp`: line 23 inserts the string literal and then
`std::endl` into `std::cout`, line 24 returns `0`. -/
def main (w : World) : World × Outcome :=
  match ostream_insert helloWorld w.cout with
  | .error os => ({ w with cout := os }, Outcome.terminated)
  | .ok os1 =>
    match endl os1 with
    | .error os => ({ w with cout := os }, Outcome.terminated)
    | .ok os2 => ({ w with cout := os2 }, Outcome.returned 0)

/-- What the invocation of the program fixes: arguments, environment, standard input, file
system, and the condition of standard output (error state and stream buffer). -/
structure Invocation where
  args : List String
  env : List (String × String)
  stdin : List Char
  files : List (String × List Char)
  rdstate : IoState
  rdbuf : StreamBuf
deriving DecidableEq, Repr

/-- The state in which `main` is entered.  The run-time library has constructed `std::cout`
with `basic_ios::init`, so `exceptions()` is `goodbit`; no member of `std::cout` has been
called yet. -/
def programStart (i : Invocation) : World :=
  { args := i.args, env := i.env, stdin := i.stdin, files := i.files,
    cout := { rdstate := i.rdstate, exceptions := goodbit, rdbuf := i.rdbuf, trace := [] } }

/-! ## `main` as a machine stepping through its statements -/

/-- An empty and healthy standard output: nothing written, no error bit, a device without
limit, behind a put area of `cap` characters. -/
def healthyBuf (cap : Nat) : StreamBuf :=
  { device := [], pending := [], cap := cap, room := none }

/-- A standard output whose device accepts only `r` more characters behind a put area of
`cap` characters (`r = 0`: a closed standard output). -/
def limitedBuf (cap r : Nat) : StreamBuf :=
  { device := [], pending := [], cap := cap, room := some r }

/-- The invocation with no arguments, an empty environment, no input and no files, on an
empty and healthy standard output with a put area of 1024 characters. -/
def plainInvocation : Invocation :=
  { args := [], env := [], stdin := [], files := [], rdstate := goodbit,
    rdbuf := healthyBuf 1024 }

/-! ## Lemmas

### The stream buffer in front of a device without limit -/

theorem transmit_of_room_none (cs : List Char) (b : StreamBuf) (h : b.room = none) :
    b.transmit cs = ({ b with device := b.device ++ cs }, []) := by
  simp [StreamBuf.transmit, h]

theorem overflow_of_room_none (c : Char) (b : StreamBuf) (h : b.room = none) :
    (b.overflow c).2 = true ∧ (b.overflow c).1.room = none ∧ (b.overflow c).1.cap = b.cap ∧
      (b.overflow c).1.contents = b.contents ++ [c] := by
  unfold StreamBuf.overflow
  rw [transmit_of_room_none _ _ h]
  by_cases hc : b.cap = 0
  · simp [hc, StreamBuf.transmit, h, StreamBuf.contents]
  · simp [hc, h, StreamBuf.contents]

theorem sputc_of_room_none (c : Char) (b : StreamBuf) (h : b.room = none) :
    (b.sputc c).2 = true ∧ (b.sputc c).1.room = none ∧ (b.sputc c).1.cap = b.cap ∧
      (b.sputc c).1.contents = b.contents ++ [c] := by
  unfold StreamBuf.sputc
  by_cases hl : b.pending.length < b.cap
  · simp [hl, h, StreamBuf.contents]
  · simpa [hl] using overflow_of_room_none c b h

theorem sputn_of_room_none (s : List Char) :
    ∀ b : StreamBuf, b.room = none →
      (b.sputn s).2 = s.length ∧ (b.sputn s).1.room = none ∧ (b.sputn s).1.cap = b.cap ∧
        (b.sputn s).1.contents = b.contents ++ s := by
  induction s with
  | nil => intro b h; simp [StreamBuf.sputn, h]
  | cons c cs ih =>
    intro b h
    obtain ⟨h1, h2, h3, h4⟩ := sputc_of_room_none c b h
    obtain ⟨k1, k2, k3, k4⟩ := ih (b.sputc c).1 h2
    have hs : b.sputc c = ((b.sputc c).1, true) := by rw [← h1]
    unfold StreamBuf.sputn
    rw [hs]
    simp [k1, k2, k3, k4, h3, h4]

theorem pubsync_of_room_none (b : StreamBuf) (h : b.room = none) :
    (b.pubsync).2 = true ∧ (b.pubsync).1.room = none ∧ (b.pubsync).1.cap = b.cap ∧
      (b.pubsync).1.device = b.contents ∧ (b.pubsync).1.pending = [] := by
  unfold StreamBuf.pubsync
  rw [transmit_of_room_none _ _ h]
  simp [h, StreamBuf.contents]


/-! ### Stream calls when no exception is enabled -/

theorem sentry_of_good (os : OStream) (h : os.rdstate = goodbit) :
    os.sentry = Except.ok (os, true) := by
  simp [OStream.sentry, OStream.good, h]

theorem ostream_insert_of_healthy (s : List Char) (os : OStream) (hg : os.rdstate = goodbit)
    (hr : os.rdbuf.room = none) :
    ostream_insert s os = Except.ok
      { os with rdbuf := (os.rdbuf.sputn s).1, trace := os.trace ++ [StreamOp.insert s] } := by
  unfold ostream_insert
  rw [sentry_of_good { os with trace := os.trace ++ [StreamOp.insert s] } hg]
  simp [ostream_write, (sputn_of_room_none s os.rdbuf hr).1]

theorem put_of_healthy (c : Char) (os : OStream) (hg : os.rdstate = goodbit)
    (hr : os.rdbuf.room = none) :
    os.put c = Except.ok
      { os with rdbuf := (os.rdbuf.sputc c).1, trace := os.trace ++ [StreamOp.put c] } := by
  unfold OStream.put
  rw [sentry_of_good { os with trace := os.trace ++ [StreamOp.put c] } hg]
  simp [(sputc_of_room_none c os.rdbuf hr).1]

theorem flush_of_healthy (os : OStream) (hg : os.rdstate = goodbit)
    (hr : os.rdbuf.room = none) :
    os.flush = Except.ok
      { os with rdbuf := (os.rdbuf.pubsync).1, trace := os.trace ++ [StreamOp.flush] } := by
  unfold OStream.flush
  rw [sentry_of_good { os with trace := os.trace ++ [StreamOp.flush] } hg]
  simp [(pubsync_of_room_none os.rdbuf hr).1]

theorem main_of_healthy (w : World) (hg : w.cout.rdstate = goodbit)
    (hr : w.cout.rdbuf.room = none) :
    (main w).2 = Outcome.returned 0 ∧ (main w).1.cout.rdstate = goodbit ∧
      (main w).1.cout.rdbuf.device = w.cout.rdbuf.contents ++ helloWorld ++ ['\n'] ∧
      (main w).1.cout.rdbuf.pending = [] := by
  obtain ⟨-, a2, -, a4⟩ := sputn_of_room_none helloWorld w.cout.rdbuf hr
  obtain ⟨-, b2, -, b4⟩ := sputc_of_room_none '\n' (w.cout.rdbuf.sputn helloWorld).1 a2
  obtain ⟨-, -, -, c4, c5⟩ :=
    pubsync_of_room_none ((w.cout.rdbuf.sputn helloWorld).1.sputc '\n').1 b2
  have e1 := ostream_insert_of_healthy helloWorld w.cout hg hr
  have e2 := put_of_healthy '\n'
    { w.cout with rdbuf := (w.cout.rdbuf.sputn helloWorld).1,
                  trace := w.cout.trace ++ [StreamOp.insert helloWorld] } hg a2
  have e3 := flush_of_healthy
    { w.cout with rdbuf := ((w.cout.rdbuf.sputn helloWorld).1.sputc '\n').1,
                  trace := w.cout.trace ++ [StreamOp.insert helloWorld] ++ [StreamOp.put '\n'] }
    hg b2
  unfold main
  rw [e1]
  simp only [endl, e2, e3]
  simp only [c4, c5, b4, a4, hg, and_self]

/-! ### `main` -/

theorem main_changes_cout_only (w : World) :
    main w = ({ w with cout := (main w).1.cout }, (main w).2) := by
  unfold main
  split
  · rfl
  · split <;> rfl

theorem main_reads_cout_only (w1 w2 : World) (h : w1.cout = w2.cout) :
    (main w1).1.cout = (main w2).1.cout ∧ (main w1).2 = (main w2).2 := by
  unfold main
  rw [h]
  split
  · exact ⟨rfl, rfl⟩
  · split <;> exact ⟨rfl, rfl⟩

/-- Claim C1: started on an empty and healthy standard output (no error bit, nothing written
or pending, a device without limit, whatever the size of the put area), `main` leaves on
standard output exactly the 14 characters of `Hello, World!` followed by one newline, leaves
nothing pending, and returns exit code 0. -/
theorem main_writes_hello_line (w : World)
    (hgood : w.cout.rdstate = goodbit) (hroom : w.cout.rdbuf.room = none)
    (hdevice : w.cout.rdbuf.device = []) (hpending : w.cout.rdbuf.pending = []) :
    (main w).1.cout.rdbuf.device = "Hello, World!\n".toList ∧
      (main w).1.cout.rdbuf.device.length = 14 ∧
      (main w).1.cout.rdbuf.pending = [] ∧
      (main w).2 = Outcome.returned 0 := by
  obtain ⟨h1, -, h3, h4⟩ := main_of_healthy w hgood hroom
  have hd : (main w).1.cout.rdbuf.device = "Hello, World!\n".toList := by
    rw [h3, StreamBuf.contents, hdevice, hpending]
    rfl
  refine ⟨hd, ?_, h4, h1⟩
  rw [hd]
  rfl

/-- Witness for claim C1: the invocation without arguments on an empty, healthy standard
output behind a put area of 1024 characters. -/
theorem main_writes_hello_line_witness :
    (programStart plainInvocation).args = [] ∧
      (programStart plainInvocation).cout.rdstate = goodbit ∧
      (programStart plainInvocation).cout.rdbuf.room = none ∧
      (programStart plainInvocation).cout.rdbuf.device = [] ∧
      (programStart plainInvocation).cout.rdbuf.pending = [] ∧
      ((main (programStart plainInvocation)).1.cout.rdbuf.device = "Hello, World!\n".toList ∧
        (main (programStart plainInvocation)).1.cout.rdbuf.device.length = 14 ∧
        (main (programStart plainInvocation)).1.cout.rdbuf.pending = [] ∧
        (main (programStart plainInvocation)).2 = Outcome.returned 0) :=
  ⟨rfl, rfl, rfl, rfl, rfl,
    main_writes_hello_line (programStart plainInvocation) rfl rfl rfl rfl⟩

/-- Claim C2: two runs that differ only in their command-line arguments, environment
variables and standard-input contents, with the same file system and the same initial state
of standard output, end with the same state of standard output and the same outcome. -/
theorem main_independent_of_inputs (args1 args2 : List String)
    (env1 env2 : List (String × String)) (stdin1 stdin2 : List Char)
    (files : List (String × List Char)) (out : OStream) :
    (main { args := args1, env := env1, stdin := stdin1, files := files, cout := out }).1.cout =
        (main { args := args2, env := env2, stdin := stdin2, files := files, cout := out }).1.cout ∧
      (main { args := args1, env := env1, stdin := stdin1, files := files, cout := out }).2 =
        (main { args := args2, env := env2, stdin := stdin2, files := files, cout := out }).2 :=
  main_reads_cout_only _ _ rfl

/-- Claim C4: for every initial state, `main` leaves the file system and the environment
variables as they were (and the arguments and standard input too): the state after `main` is
the initial state with only `std::cout` replaced. -/
theorem main_preserves_files_and_env (w : World) :
    (main w).1.files = w.files ∧ (main w).1.env = w.env ∧
      (main w).1.args = w.args ∧ (main w).1.stdin = w.stdin ∧
      (main w).1 = { w with cout := (main w).1.cout } := by
  have h := main_changes_cout_only w
  refine ⟨?_, ?_, ?_, ?_, ?_⟩ <;> rw [h]

/-- On a closed standard output nothing is emitted, `badbit` is set, and `main` still returns
exit code 0. -/
theorem main_on_closed_stdout :
    (main (programStart { plainInvocation with rdbuf := limitedBuf 0 0 })).1.cout.rdbuf.device = [] ∧
      (main (programStart { plainInvocation with rdbuf := limitedBuf 0 0 })).1.cout.rdstate.bad = true ∧
      (main (programStart { plainInvocation with rdbuf := limitedBuf 0 0 })).2 = Outcome.returned 0 := by
  decide

/-- On a standard output that accepts only five characters, only `Hello` is emitted, `badbit`
is set, and `main` still returns exit code 0. -/
theorem main_on_short_stdout :
    (main (programStart { plainInvocation with rdbuf := limitedBuf 0 5 })).1.cout.rdbuf.device =
        "Hello".toList ∧
      (main (programStart { plainInvocation with rdbuf := limitedBuf 0 5 })).1.cout.rdstate.bad = true ∧
      (main (programStart { plainInvocation with rdbuf := limitedBuf 0 5 })).2 = Outcome.returned 0 := by
  decide

end HelloWorld
